import Mathlib

/-!
Verification of the NovaStoryteller story generation and narration pipeline.

This file gives a shallow embedding, in Lean 4, of the parts of the
repository that the verified claims are about:

* `api/nova_service.py` : `NovaService.parse_story_parts` (the scene text
  parser), including the exact semantics of the three regex strategies it
  applies in order, and the fallback.
* `api/views.py` : `StoryViewSet._generate_story_content`, `perform_update`,
  `regenerate`, `generate_scenes` - modelled as pure functions from a story
  record and an environment (the outcomes of the external collaborators:
  text generation, speech synthesis, transcoding, file saving) to a new
  record, a trace of observable events (database commits, file writes and
  deletes, revision creation), and a return value.
* `api/consumers.py` : `VoiceStoryConsumer.connect`, `check_permission`,
  `receive` and the four message handlers - modelled as functions producing
  the list of emitted frames / close events.

Python strings are modelled as `List Char`; the regular expressions of the
parser are compiled by hand to deterministic character level matchers whose
semantics (greedy and lazy quantifier behaviour, MULTILINE anchors,
lookahead) follow the Python `re` module on the concrete patterns used by
the source. All definitions are fuel-free structural recursions or carry an
explicit fuel argument so that every concrete instance evaluates inside the
kernel.
-/

namespace NovaStoryteller

/-! ## Character helpers (Python `str` semantics) -/

/-- Python whitespace (`\s` in `re`, and `str.strip`), ASCII fragment:
space, tab, newline, carriage return, vertical tab, form feed. -/
def isWs (c : Char) : Bool :=
  c.toNat = 32 ∨ c.toNat = 9 ∨ c.toNat = 10 ∨ c.toNat = 13 ∨ c.toNat = 11 ∨ c.toNat = 12

/-- Python `\d`, ASCII fragment. -/
def isDigitC (c : Char) : Bool := 48 ≤ c.toNat ∧ c.toNat ≤ 57

/-- Code point of the lower-cased character (ASCII case folding, as used by
the `(?i)` flag on the ASCII keywords of the patterns). -/
def lowerNat (c : Char) : Nat :=
  if 65 ≤ c.toNat ∧ c.toNat ≤ 90 then c.toNat + 32 else c.toNat

/-- `str.strip()` : drop whitespace from both ends. -/
def strip (s : List Char) : List Char :=
  ((s.dropWhile isWs).reverse.dropWhile isWs).reverse

/-- Split a list on a separator character; mirrors Python `str.split(sep)`
for a one-character separator (always returns at least one piece). -/
def splitOnChar (sep : Char) : List Char → List (List Char)
  | [] => [[]]
  | c :: cs =>
    if c = sep then [] :: splitOnChar sep cs
    else
      match splitOnChar sep cs with
      | l :: ls => (c :: l) :: ls
      | [] => [[c]]

/-- Python `text.split(chr(10))`. -/
def splitLines (s : List Char) : List (List Char) := splitOnChar '\n' s

/-- Python `(chr(10)).join(lines)`. -/
def joinLines (ls : List (List Char)) : List Char :=
  match ls with
  | [] => []
  | l :: rest => rest.foldl (fun acc x => acc ++ '\n' :: x) l

/-- The basename of a slash-separated path. -/
def baseName (p : List Char) : List Char := (splitOnChar '/' p).getLastD []

/-- Maximal run of whitespace characters and the remaining suffix
(the deterministic reading of a greedy `\s*` or `\s+`). -/
def wsSplit : List Char → List Char × List Char
  | [] => ([], [])
  | c :: cs =>
    if isWs c then
      match wsSplit cs with
      | (w, r) => (c :: w, r)
    else ([], c :: cs)

/-- Maximal run of digits and the remaining suffix (greedy `\d+`). -/
def digitsSplit : List Char → List Char × List Char
  | [] => ([], [])
  | c :: cs =>
    if isDigitC c then
      match digitsSplit cs with
      | (d, r) => (c :: d, r)
    else ([], c :: cs)

/-- Maximal run of `#` characters and the remaining suffix (`#` has no
case so this reads a greedy `#` repetition). -/
def hashSplit : List Char → List Char × List Char
  | [] => ([], [])
  | c :: cs =>
    if c = '#' then
      match hashSplit cs with
      | (h, r) => (c :: h, r)
    else ([], c :: cs)

/-- Python `int` on a digit string. -/
def natOfDigits (ds : List Char) : Nat :=
  ds.foldl (fun n c => n * 10 + (c.toNat - 48)) 0

/-- Case-insensitive literal match: if the lower-cased input starts with
`pat` (given in lower case), return the rest. -/
def ciLit : List Char → List Char → Option (List Char)
  | [], s => some s
  | _ :: _, [] => none
  | p :: ps, c :: cs => if lowerNat c = p.toNat then ciLit ps cs else none

/-- The alternation `(?i)(?:Part|Chapter|Scene)`, tried in source order. -/
def ciKeyword (s : List Char) : Option (List Char) :=
  match ciLit "part".data s with
  | some r => some r
  | none =>
    match ciLit "chapter".data s with
    | some r => some r
    | none => ciLit "scene".data s

/-! ## Markdown header strategy

Pattern (from `parse_story_parts`):
`(?i)^#{1,6}\s+(?:Part|Chapter|Scene)\s+(\d+)\s*$`
used once with `re.finditer(..., re.MULTILINE)` over the raw text (only to
decide whether the strategy applies), and once with `re.match` on each
stripped line. Both uses share one matcher: with MULTILINE the trailing
`\s*$` accepts at end of input or before a newline (after an optional
whitespace run), and a stripped line contains no newline, which makes the
single matcher faithful for both. -/

/-- Accepts the trailing `\s*$` (MULTILINE `$`): scanning forward through
whitespace, succeed when reaching end of input or a newline. -/
def wsThenEol : List Char → Bool
  | [] => true
  | c :: cs => if c = '\n' then true else if isWs c then wsThenEol cs else false

/-- Match the markdown header pattern at the start of `s`, returning the
captured part number. -/
def mdMatchAt (s : List Char) : Option Nat :=
  match hashSplit s with
  | (h, r1) =>
    if 1 ≤ h.length ∧ h.length ≤ 6 then
      match wsSplit r1 with
      | (w1, r2) =>
        if w1 = [] then none
        else
          match ciKeyword r2 with
          | none => none
          | some r3 =>
            match wsSplit r3 with
            | (w2, r4) =>
              if w2 = [] then none
              else
                match digitsSplit r4 with
                | (ds, r5) =>
                  if ds = [] then none
                  else if wsThenEol r5 then some (natOfDigits ds) else none
    else none

/-- All suffixes of `s` that start at a line start (position 0 or the
position immediately after a newline): the positions where a MULTILINE `^`
matches. -/
def lineStartSuffixes (s : List Char) : List (List Char) :=
  s :: go s
where
  go : List Char → List (List Char)
    | [] => []
    | c :: cs => if c = '\n' then cs :: go cs else go cs

/-- `markdown_matches` is non-empty: the MULTILINE finditer of the markdown
header pattern finds at least one match in the raw text. -/
def mdGate (s : List Char) : Bool :=
  (lineStartSuffixes s).any fun suf => (mdMatchAt suf).isSome

/-- An ordered story segment: `{number, text}` in the source. -/
structure Part where
  number : Nat
  text : List Char
  deriving DecidableEq, Repr

/-- `re.match(markdown_pattern, line.strip())` inside the line loop. -/
def mdHeaderLine (l : List Char) : Option Nat := mdMatchAt (strip l)

/-- Saving the previous part in the line loop: only when a current part is
open and its joined text strips to something non-empty. -/
def mdFlush (cur : Option Nat) (acc : List (List Char)) (parts : List Part) : List Part :=
  match cur with
  | none => parts
  | some n =>
    let t := strip (joinLines acc)
    if t = [] then parts else parts ++ [⟨n, t⟩]

/-- The markdown branch line loop of `parse_story_parts`: walk the lines,
opening a new part at each header line, accumulating other lines into the
current part, and dropping lines seen before the first header. -/
def mdLoopGo : List (List Char) → Option Nat → List (List Char) → List Part → List Part
  | [], cur, acc, parts => mdFlush cur acc parts
  | l :: ls, cur, acc, parts =>
    match mdHeaderLine l with
    | some n => mdLoopGo ls (some n) [] (mdFlush cur acc parts)
    | none =>
      match cur with
      | none => mdLoopGo ls none acc parts
      | some m => mdLoopGo ls (some m) (acc ++ [l]) parts

/-- The whole markdown strategy: the parts the line loop produces when the
finditer gate fires, and nothing otherwise. -/
def mdParts (s : List Char) : List Part :=
  if mdGate s then mdLoopGo (splitLines s) none [] [] else []

/-! ## Inline-marker strategy

Pattern (from `parse_story_parts`, flags `re.MULTILINE | re.DOTALL`):
`(?i)^(?:Part|Chapter|Scene)\s+(\d+)[:\.]\s*(.+?)(?=(?:Part|Chapter|Scene)\s+\d+[:\.]|$)`

Deterministic reading (derived from the `re` semantics on this pattern):
`^` anchors to a line start; `\s+` and `\d+` are over disjoint classes so
greediness is plain maximal-run consumption; the lazy `(.+?)` grows from
one character until the first position where the lookahead holds, and the
lookahead holds before a newline, at end of input (`$` under MULTILINE),
or where the literal `(?:Part|Chapter|Scene)\s+\d+[:.]` text begins (the
lookahead alternative is not anchored to a line start). When the greedy
`\s*` reaches the end of input, it backtracks by one character so that the
lazy group can take a final whitespace character. -/

/-- The lookahead alternative `(?i)(?:Part|Chapter|Scene)\s+\d+[:\.]`. -/
def p1Look (s : List Char) : Bool :=
  match ciKeyword s with
  | none => false
  | some r =>
    match wsSplit r with
    | (w, r2) =>
      if w = [] then false
      else
        match digitsSplit r2 with
        | (ds, r3) =>
          if ds = [] then false
          else
            match r3 with
            | c :: _ => c = ':' ∨ c = '.'
            | [] => false

/-- Lazy `(.+?)(?=stop)`: extend the captured text one character at a time
until `stop` holds at the position after the last captured character
(`stop` receives the last captured character and the remaining suffix).
Returns the captured text and the remaining suffix; `none` only when the
input is empty. -/
def lazyTakeAux (stop : Char → List Char → Bool) :
    Char → List Char → List Char → Option (List Char × List Char)
  | c, cs, accRev =>
    if stop c cs then some (accRev.reverse, cs)
    else
      match cs with
      | [] => none
      | d :: ds => lazyTakeAux stop d ds (d :: accRev)

def lazyTake (stop : Char → List Char → Bool) :
    List Char → Option (List Char × List Char)
  | [] => none
  | c :: cs => lazyTakeAux stop c cs [c]

/-- Stop positions of the inline-marker lazy group: end of input, before a
newline (MULTILINE `$`), or where the lookahead literal begins. -/
def p1Stop (_last : Char) (cs : List Char) : Bool :=
  match cs with
  | [] => true
  | c :: _ => c = '\n' ∨ p1Look cs

/-- One inline-marker match attempt at a line-start position: returns the
captured number, the captured (raw) segment text, the suffix after the
match, and the last character the match consumed (used to decide whether
the next scanning position is a line start). -/
def p1MatchAt (s : List Char) : Option (Nat × List Char × List Char × Char) :=
  match ciKeyword s with
  | none => none
  | some r =>
    match wsSplit r with
    | (w, r2) =>
      if w = [] then none
      else
        match digitsSplit r2 with
        | (ds, r3) =>
          if ds = [] then none
          else
            match r3 with
            | [] => none
            | p :: r4 =>
              if p = ':' ∨ p = '.' then
                match wsSplit r4 with
                | (w2, r5) =>
                  match lazyTake p1Stop r5 with
                  | some (t, u) => some (natOfDigits ds, t, u, t.getLastD ' ')
                  | none =>
                    match w2.getLast? with
                    | some c => some (natOfDigits ds, [c], [], c)
                    | none => none
              else none

/-- `re.finditer` scan for the inline-marker pattern: try a match at every
line-start position, resume after each match end, otherwise advance one
character. `fuel` bounds the recursion; it is always called with more fuel
than characters, and every step consumes at least one character. -/
def p1FindGo : Bool → List Char → Nat → List (Nat × List Char)
  | _, _, 0 => []
  | _, [], _ + 1 => []
  | als, c :: cs, fuel + 1 =>
    if als then
      match p1MatchAt (c :: cs) with
      | some (n, t, u, last) => (n, t) :: p1FindGo (last = '\n') u fuel
      | none => p1FindGo (c = '\n') cs fuel
    else p1FindGo (c = '\n') cs fuel

/-- All raw inline-marker matches of the text. -/
def p1Matches (s : List Char) : List (Nat × List Char) :=
  p1FindGo true s (s.length + 1)

/-- The inline-marker strategy: strip each captured text, keep non-empty
results (`if part_text:` in the source). -/
def p1Parts (s : List Char) : List Part :=
  (p1Matches s).filterMap fun m =>
    let t := strip m.2
    if t = [] then none else some ⟨m.1, t⟩

/-! ## Numbered-list strategy

Pattern (flags `re.MULTILINE | re.DOTALL`):
`(?i)^(\d+)[:\.]\s+(.+?)(?=^\d+[:\.]|$)`

Same reading as the inline-marker pattern, except: the whitespace after
the punctuation is `\s+` (at least one character, so a match fails when
nothing but a single trailing whitespace character follows), and the
lookahead alternative `^\d+[:\.]` is anchored to a line start, so it can
only fire when the last captured character is a newline. Segments shorter
than a threshold are dropped after stripping (`len(part_text) > 50`). -/

/-- The lookahead alternative `\d+[:\.]` (its `^` is handled by the caller
through the last captured character). -/
def p2Look (s : List Char) : Bool :=
  match digitsSplit s with
  | (ds, r) =>
    if ds = [] then false
    else
      match r with
      | c :: _ => c = ':' ∨ c = '.'
      | [] => false

/-- Stop positions of the numbered-list lazy group. -/
def p2Stop (last : Char) (cs : List Char) : Bool :=
  match cs with
  | [] => true
  | c :: _ => c = '\n' ∨ (last = '\n' ∧ p2Look cs)

/-- One numbered-list match attempt at a line-start position. -/
def p2MatchAt (s : List Char) : Option (Nat × List Char × List Char × Char) :=
  match digitsSplit s with
  | (ds, r1) =>
    if ds = [] then none
    else
      match r1 with
      | [] => none
      | p :: r2 =>
        if p = ':' ∨ p = '.' then
          match wsSplit r2 with
          | (w, r3) =>
            if w = [] then none
            else
              match lazyTake p2Stop r3 with
              | some (t, u) => some (natOfDigits ds, t, u, t.getLastD ' ')
              | none =>
                if 2 ≤ w.length then
                  some (natOfDigits ds, [w.getLastD ' '], [], w.getLastD ' ')
                else none
        else none

/-- `re.finditer` scan for the numbered-list pattern. -/
def p2FindGo : Bool → List Char → Nat → List (Nat × List Char)
  | _, _, 0 => []
  | _, [], _ + 1 => []
  | als, c :: cs, fuel + 1 =>
    if als then
      match p2MatchAt (c :: cs) with
      | some (n, t, u, last) => (n, t) :: p2FindGo (last = '\n') u fuel
      | none => p2FindGo (c = '\n') cs fuel
    else p2FindGo (c = '\n') cs fuel

/-- All raw numbered-list matches of the text. -/
def p2Matches (s : List Char) : List (Nat × List Char) :=
  p2FindGo true s (s.length + 1)

/-- The numbered-list strategy: strip each captured text, keep only
substantial sections (`if part_text and len(part_text) > 50`). -/
def p2Parts (s : List Char) : List Part :=
  (p2Matches s).filterMap fun m =>
    let t := strip m.2
    if t ≠ [] ∧ 50 < t.length then some ⟨m.1, t⟩ else none

/-! ## `parse_story_parts` -/

/-- Stable insertion of a part after all parts with a number not above its
own: together with a left fold this reproduces the stable
`parts.sort(key=lambda x: x[number])`. -/
def insertByNumber (p : Part) : List Part → List Part
  | [] => [p]
  | q :: qs => if q.number ≤ p.number then q :: insertByNumber p qs else p :: q :: qs

/-- Stable sort of the parts list by ascending number. -/
def sortByNumber (l : List Part) : List Part :=
  l.foldl (fun acc p => insertByNumber p acc) []

/-- `NovaService.parse_story_parts` : empty or whitespace-only input gives
an empty list; otherwise the three strategies are tried in order, each one
only when everything before it produced no parts; if all strategies come
up empty, the whole stripped text becomes a single part numbered 1; the
result is sorted by part number. -/
def parse_story_parts (story_text : List Char) : List Part :=
  if strip story_text = [] then []
  else
    let parts0 := mdParts story_text
    let parts1 := if parts0 = [] then p1Parts story_text else parts0
    let parts2 := if parts1 = [] then p2Parts story_text else parts1
    let parts3 := if parts2 = [] then [⟨1, strip story_text⟩] else parts2
    sortByNumber parts3

/-! ## Story records, observable events

The Django side of the pipeline (`api/views.py`) is embedded as pure
functions from a story record plus an environment describing collaborator
outcomes (text generation, speech synthesis, transcoding, file save, the
pre-existing files on disk) to an updated in-memory record, a trace of
observable events, and the returned value. Database state is recoverable
from the trace: a field value is durable once a `commit` event naming the
field occurs. -/

/-- The story fields that appear in `update_fields` lists of `save` calls. -/
inductive FField
  | storyText | systemPromptUsed | audioFile | imageDescription | voiceId
  | promptF | templateF | title
  deriving DecidableEq, Repr

/-- All fields: a `story.save()` or `serializer.save()` with no
`update_fields` commits every field. -/
def allFields : List FField :=
  [FField.storyText, FField.systemPromptUsed, FField.audioFile,
   FField.imageDescription, FField.voiceId, FField.promptF, FField.templateF,
   FField.title]

/-- Observable side effects of the story endpoints, in program order. -/
inductive Ev
  | commit (fields : List FField)
  | audioAttempt
  | writeFile (path : List Char)
  | setAudioRef (path : List Char)
  | deleteFile (path : List Char)
  | createRevision (text : List Char) (byUser : Nat)
  | deleteAllScenes
  | createScene (n : Nat) (text : List Char)
  deriving DecidableEq, Repr

/-- The `Story` model fields the pipeline touches. Optional text fields
use the empty list as the false-y value, matching Django text fields. -/
structure StoryRec where
  userId : Nat
  title : List Char
  prompt : List Char
  story_text : List Char
  system_prompt_used : List Char
  template : List Char
  voice_id : List Char
  audio_file : Option (List Char)
  image : Option (List Char)
  image_description : List Char
  deriving DecidableEq, Repr

/-- Python `sub in s` : `pat` occurs as a contiguous run inside `s`. -/
def containsSub (pat : List Char) : List Char → Bool
  | [] => pat.isPrefixOf []
  | c :: cs => pat.isPrefixOf (c :: cs) ∨ containsSub pat cs

/-- Python `s.lower()`, ASCII fragment. -/
def lowerList (s : List Char) : List Char :=
  s.map fun c => Char.ofNat (lowerNat c)

/-- `'audio' in path.lower() or path.endswith((...)))` - the defensive
audio-filename test of `_generate_story_content` (extension list
`.mp3 .wav .pcm .m4a .ogg`). -/
def isAudioNameGen (p : List Char) : Bool :=
  containsSub "audio".data (lowerList p) ∨
  ".mp3".data.isSuffixOf p ∨ ".wav".data.isSuffixOf p ∨
  ".pcm".data.isSuffixOf p ∨ ".m4a".data.isSuffixOf p ∨ ".ogg".data.isSuffixOf p

/-- The same test in `regenerate` (shorter extension list
`.mp3 .wav .m4a`). -/
def isAudioNameRegen (p : List Char) : Bool :=
  containsSub "audio".data (lowerList p) ∨
  ".mp3".data.isSuffixOf p ∨ ".wav".data.isSuffixOf p ∨ ".m4a".data.isSuffixOf p

/-- `glob` pattern `audio_*.mp3` on a basename. -/
def globAudioMp3 (name : List Char) : Bool :=
  "audio_".data.isPrefixOf name ∧ ".mp3".data.isSuffixOf name ∧ 10 ≤ name.length

/-- Outcomes of the collaborators and the filesystem, as seen by one run
of `_generate_story_content`:
* `novaImportOk`   - the `from .nova_service import NovaService` and client
  construction succeed (an `ImportError` and a credential error are both
  modelled here as the failure case, each mapping to its own except arm in
  the source; the distinction does not affect the verified claims);
* `analyzeImage`   - result of `nova.analyze_image`;
* `textGen`        - result of `nova.generate_story(..., return_system_prompt=True)`:
  the generated text and the system prompt used, or an exception message;
* `tts`            - `nova.synthesize_speech`: `some pcm` for a non-empty
  result, `none` when it raises or returns empty bytes (both raise inside
  the audio `try`);
* `mp3`            - `pcm_to_mp3`: `some data` or a raise / empty result;
* `savedPath`      - `save_image_file` return value (`none` is false-y and
  raises);
* `oldExists`      - `os.path.exists` on the previous audio path;
* `dirFiles`       - basenames of the files sharing the directory of the
  new audio asset (the candidates of the `glob` cleanup scan). -/
structure GenEnv where
  novaImportOk : Bool
  analyzeImage : Except (List Char) (List Char)
  textGen : Except (List Char) (List Char × List Char)
  tts : Option (List Char)
  mp3 : Option (List Char)
  savedPath : Option (List Char)
  oldExists : Bool
  dirFiles : List (List Char)
  deriving Repr

/-- `"Nova AI service not configured. Please configure AWS credentials."` -/
def novaNotConfiguredMsg : List Char :=
  "Nova AI service not configured. Please configure AWS credentials.".data

/-- `f"Error generating story: {str(e)}. Please try again or contact support."` -/
def errorStoryMsg (e : List Char) : List Char :=
  "Error generating story: ".data ++ e ++ ". Please try again or contact support.".data

/-- The audio `try` block of `_generate_story_content` (lines 1682-1820):
raise on empty text, synthesize, transcode, capture the old path, write
the new asset, set and commit the audio reference, then delete the
specific old file (only if it is a different audio-named file that exists)
and sweep other `audio_*.mp3` files in the directory. Every failure is
caught by the enclosing `except`, leaving the record as it was at the
failing step. -/
def audioStage (env : GenEnv) (story : StoryRec) (story_text : List Char) :
    StoryRec × List Ev :=
  if strip story_text = [] then (story, [Ev.audioAttempt])
  else
    match env.tts with
    | none => (story, [Ev.audioAttempt])
    | some _ =>
      match env.mp3 with
      | none => (story, [Ev.audioAttempt])
      | some _ =>
        let old_audio_path := story.audio_file
        match env.savedPath with
        | none => (story, [Ev.audioAttempt])
        | some audio_path =>
          let story1 := { story with audio_file := some audio_path }
          let delOld :=
            match old_audio_path with
            | some o =>
              if o ≠ audio_path ∧ isAudioNameGen o ∧ env.oldExists
              then [Ev.deleteFile o] else []
            | none => []
          let sweep :=
            (env.dirFiles.filter fun f =>
              globAudioMp3 f ∧ f ≠ baseName audio_path).map Ev.deleteFile
          (story1,
            [Ev.audioAttempt, Ev.writeFile audio_path, Ev.setAudioRef audio_path,
             Ev.commit [FField.audioFile]] ++ delOld ++ sweep)

/-- `StoryViewSet._generate_story_content(story, image_description,
generate_only_audio)` (the source name carries a leading underscore).
Analyzes an uploaded image when no description was passed (errors here are
swallowed), generates text (unless audio-only) and commits it together
with the system prompt before any audio work, then runs the audio stage
whose failures never propagate, and returns `true`; a text generation
failure or import failure overwrites the story text with a user-facing
message, commits, and returns `false`. -/
def generate_story_content (env : GenEnv) (story : StoryRec)
    (image_description : Option (List Char)) (generate_only_audio : Bool) :
    StoryRec × List Ev × Bool :=
  if ¬env.novaImportOk then
    ({ story with story_text := novaNotConfiguredMsg },
     [Ev.commit allFields], false)
  else
    let analyzed :=
      if story.image.isSome ∧ image_description = none then
        match env.analyzeImage with
        | .ok d =>
          ({ story with image_description := d },
           [Ev.commit [FField.imageDescription]])
        | .error _ => (story, [])
      else (story, [])
    let story1 := analyzed.1
    let evs1 := analyzed.2
    if generate_only_audio then
      let staged := audioStage env story1 story1.story_text
      (staged.1, evs1 ++ staged.2, true)
    else
      match env.textGen with
      | .error e =>
        ({ story1 with story_text := errorStoryMsg e },
         evs1 ++ [Ev.commit allFields], false)
      | .ok (t, sp) =>
        let story2 := { story1 with story_text := t, system_prompt_used := sp }
        let evs2 := evs1 ++ [Ev.commit [FField.storyText, FField.systemPromptUsed]]
        let staged := audioStage env story2 t
        (staged.1, evs2 ++ staged.2, true)

/-! ## `perform_update` -/

/-- The serializer `validated_data` as far as the update path inspects it:
whether `story_text` is among the validated fields (and its value), and
whether a truthy `image` is among them. -/
structure UpdateData where
  story_textField : Option (List Char)
  imagePresent : Bool
  deriving Repr

/-- `StoryViewSet.perform_update` : capture the old text, commit the whole
updated record via `serializer.save()`, then create one revision of the
old text when `story_text` was among the validated fields, changed, and
was previously non-empty; finally, when a new image was uploaded,
regenerate the story content (its own failures are logged, not raised). -/
def perform_update (genEnv : GenEnv) (story : StoryRec) (reqUser : Nat)
    (data : UpdateData) : StoryRec × List Ev :=
  let old_story_text := story.story_text
  let story1 :=
    match data.story_textField with
    | some t => { story with story_text := t }
    | none => story
  let evs1 := [Ev.commit allFields]
  let evsRev :=
    match data.story_textField with
    | some new_story_text =>
      if old_story_text ≠ new_story_text ∧ old_story_text ≠ [] then
        [Ev.createRevision old_story_text reqUser]
      else []
    | none => []
  if data.imagePresent then
    let regen := generate_story_content genEnv story1 none false
    (regen.1, evs1 ++ evsRev ++ regen.2.1)
  else (story1, evs1 ++ evsRev)

/-! ## `regenerate` -/

/-- The response of the `regenerate` action, at the granularity the claims
need. -/
inductive RegenResp
  | forbidden
  | notConfigured
  | failed (msg : List Char)
  | ok
  deriving DecidableEq, Repr

/-- Outcomes of the collaborators for one `regenerate` run (same reading
as `GenEnv`; `tts` and `mp3` carry no payload because `regenerate`
performs no emptiness checks on them). -/
structure RegenEnv where
  novaImportOk : Bool
  analyzeImage : Except (List Char) (List Char)
  textGen : List Char → Except (List Char) (List Char × List Char)
  ttsOk : Bool
  mp3Ok : Bool
  savedPath : Option (List Char)
  oldExists : Bool

/-- The image-description resolution of `regenerate` (lines 2017-2047):
reuse a cached description, otherwise analyze the image fresh, committing
the description on success and swallowing analysis failures. -/
def regenImageStage (env : RegenEnv) (story : StoryRec) : StoryRec × List Ev :=
  if story.image.isSome then
    if story.image_description ≠ [] then (story, [])
    else
      match env.analyzeImage with
      | .ok d =>
        ({ story with image_description := d },
         [Ev.commit [FField.imageDescription]])
      | .error _ => (story, [])
  else (story, [])

/-- The audio `try` block of `regenerate` (lines 2076-2124): synthesize,
transcode, capture the old path, write the new asset, set the in-memory
audio reference, then delete the old audio-named file if it exists and
differs; any failure is caught, leaving the record at the failing step.
No commit happens inside this block - `story.save()` follows it. -/
def regenAudioStage (env : RegenEnv) (story3 : StoryRec) : StoryRec × List Ev :=
  if ¬env.ttsOk then (story3, [Ev.audioAttempt])
  else if ¬env.mp3Ok then (story3, [Ev.audioAttempt])
  else
    let old_audio_path := story3.audio_file
    match env.savedPath with
    | none => (story3, [Ev.audioAttempt])
    | some audio_path =>
      let story4 := { story3 with audio_file := some audio_path }
      let delOld :=
        match old_audio_path with
        | some o =>
          if o ≠ audio_path ∧ env.oldExists ∧ isAudioNameRegen o
          then [Ev.deleteFile o] else []
        | none => []
      (story4,
        [Ev.audioAttempt, Ev.writeFile audio_path,
         Ev.setAudioRef audio_path] ++ delOld)

/-- `StoryViewSet.regenerate` : permission check; snapshot the old text as
a revision whenever it strips non-empty (before anything else happens);
resolve the image description (cached, or analyzed fresh); resolve the
prompt (a new prompt replaces the stored one, otherwise the modification
request is appended as a delta instruction); generate text into memory;
attempt audio: write the new asset, set the in-memory audio reference,
delete the old audio-named file - and only then commit the whole record
with `story.save()`. A text-generation failure returns a 500 after the
revision was already created. -/
def regenerate (env : RegenEnv) (story : StoryRec)
    (reqIsSuper : Bool) (reqUser : Nat)
    (new_prompt : Option (List Char)) (modifications : List Char)
    (reqTemplate : Option (List Char)) : StoryRec × List Ev × RegenResp :=
  if ¬(reqIsSuper ∨ story.userId = reqUser) then (story, [], RegenResp.forbidden)
  else
    let template := reqTemplate.getD story.template
    let evsRev :=
      if strip story.story_text ≠ [] then
        [Ev.createRevision story.story_text reqUser]
      else []
    if ¬env.novaImportOk then (story, evsRev, RegenResp.notConfigured)
    else
      let analyzed := regenImageStage env story
      let story1 := analyzed.1
      let evs1 := analyzed.2
      let resolved :=
        match new_prompt with
        | some p => ({ story1 with prompt := p }, p)
        | none =>
          (story1,
           story1.prompt ++ "\n\nUser requested changes: ".data ++ modifications)
      let story2 := resolved.1
      let prompt_to_use := resolved.2
      match env.textGen prompt_to_use with
      | .error e => (story2, evsRev ++ evs1, RegenResp.failed e)
      | .ok (t, sp) =>
        let story3 :=
          { story2 with story_text := t, system_prompt_used := sp,
                        template := template }
        let staged := regenAudioStage env story3
        (staged.1, evsRev ++ evs1 ++ staged.2 ++ [Ev.commit allFields],
         RegenResp.ok)

/-! ## `generate_scenes` -/

/-- A `StoryScene` record as `generate_scenes` creates it. -/
structure Scene where
  scene_number : Nat
  scene_text : List Char
  prompt_used : List Char
  deriving DecidableEq, Repr

/-- The fixed style template around the (truncated) scene text; the source
literal contains an apostrophe, inserted here as `Char.ofNat 39`. -/
def scenePrompt (text : List Char) : List Char :=
  "A beautiful, colorful, child-friendly portrait illustration for a children".data
    ++ [Char.ofNat 39] ++ "s story scene. ".data
    ++ text.take 500
    ++ ". Style: whimsical, vibrant, safe for children, portrait orientation, detailed characters and setting.".data

/-- The response of the `generate_scenes` action. -/
inductive ScenesResp
  | forbidden
  | noContent
  | parseFail
  | notConfigured
  | allFailed
  | ok (scenes : List Scene)
  deriving DecidableEq, Repr

/-- `StoryViewSet.generate_scenes` : permission and content checks, parse
the story text into parts, delete the existing scene set, then one
illustration attempt per part: a failed part (`imgOk i = false` for the
i-th part, covering an image-generation exception in the loop body) is
logged and skipped, a successful one becomes a persisted scene; report
failure only when no scene at all was generated, otherwise return the
successful subset. -/
def generate_scenes (story : StoryRec) (reqIsSuper : Bool) (reqUser : Nat)
    (novaImportOk : Bool) (imgOk : Nat → Bool) : ScenesResp × List Ev :=
  if ¬(reqIsSuper ∨ story.userId = reqUser) then (ScenesResp.forbidden, [])
  else if strip story.story_text = [] then (ScenesResp.noContent, [])
  else if ¬novaImportOk then (ScenesResp.notConfigured, [])
  else
    let parts := parse_story_parts story.story_text
    if parts = [] then (ScenesResp.parseFail, [])
    else
      let scenes := parts.enum.filterMap fun ip =>
        if imgOk ip.1 then
          some ⟨ip.2.number, ip.2.text, scenePrompt ip.2.text⟩
        else none
      let evs := Ev.deleteAllScenes ::
        scenes.map fun sc => Ev.createScene sc.scene_number sc.scene_text
      if scenes = [] then (ScenesResp.allFailed, evs)
      else (ScenesResp.ok scenes, evs)

/-! ## `VoiceStoryConsumer` (api/consumers.py)

The WebSocket session is embedded as functions from an environment (the
authentication state of the connecting scope, the story lookup result, and
the collaborator outcomes) to the ordered list of emitted events: close
calls, the accept, JSON text frames (type plus the text payload the claims
inspect) and binary audio frames. -/

/-- Events a consumer handler can emit, in order. -/
inductive CEv
  | close (code : Option Nat)
  | accepted
  | frame (ftype : List Char) (payload : List Char)
  | binary (data : List Char)
  deriving DecidableEq, Repr

/-- The connection-time environment of `VoiceStoryConsumer.connect`. -/
structure ConnEnv where
  authenticated : Bool
  isSuperuser : Bool
  userId : Nat
  storyExists : Bool
  storyOwner : Nat
  sonicInitOk : Bool
  deriving Repr

/-- `VoiceStoryConsumer.check_permission` : false for an unauthenticated
user, true for a superuser, otherwise story ownership. -/
def check_permission (env : ConnEnv) : Bool :=
  if ¬env.authenticated then false
  else if env.isSuperuser then true
  else env.storyOwner = env.userId

/-- `VoiceStoryConsumer.connect` : an unknown story closes with 4004; an
authenticated user failing `check_permission` closes with 4003; an
unauthenticated user skips the permission check (the debug-mode branch of
the source, whose production `close(code=4001)` is commented out); then
the socket is accepted and the Nova Sonic stream is initialized - an
initialization failure sends an error frame and closes without a code. -/
def connect (env : ConnEnv) : List CEv :=
  if ¬env.storyExists then [CEv.close (some 4004)]
  else if env.authenticated ∧ ¬check_permission env then [CEv.close (some 4003)]
  else
    CEv.accepted ::
      (if env.sonicInitOk then
        [CEv.frame "connection_established".data "Voice session started".data]
      else
        [CEv.frame "error".data "Failed to start voice session".data,
         CEv.close none])

/-! ### The `receive` dispatch and its handlers -/

/-- The keyword parameters accepted by `NovaService.generate_story`
(its source signature:
`generate_story(self, prompt, image_description=None, template="adventure",
user_settings=None, return_system_prompt=False)`). -/
def generateStoryParams : List (List Char) :=
  ["prompt".data, "image_description".data, "template".data,
   "user_settings".data, "return_system_prompt".data]

/-- Python call semantics: passing a keyword argument whose name is not
among the declared parameters raises `TypeError` before the callee body
runs; otherwise the call produces the callee outcome. -/
def callWithKwargs (accepted : List (List Char)) (passed : List (List Char))
    (body : Except (List Char) (List Char)) : Except (List Char) (List Char) :=
  if passed.all (fun k => accepted.contains k) then body
  else Except.error "TypeError: unexpected keyword argument".data

/-- The canned reply `handle_audio_input` falls back to when the
text-generation call raises. -/
def fallbackReply : List Char :=
  "I heard you! How can I help you with the story?".data

/-- `f"Story title: ...\nStory content: ...[:500]..." if story else ""` -/
def storyContext (story : Option StoryRec) : List Char :=
  match story with
  | some s =>
    "Story title: ".data ++ s.title ++ "\nStory content: ".data ++
      s.story_text.take 500 ++ "...".data
  | none => []

/-- The fixed text around the story context in the voice-input prompt. -/
def voicePromptPre : List Char :=
  "You are narrating a story. A user just spoke to you about the story.\n            \n".data

def voicePromptPost : List Char :=
  "\n\nThe user has sent you a voice message. Respond naturally as if you heard them speak.\nKeep your response brief (1-2 sentences) and engaging.\nIf they asked a question, answer it. If they made a comment, acknowledge it.\n".data

/-- Collaborator outcomes for one `handle_audio_input` run: the story
lookup, what `nova.generate_story` would return were it called with valid
arguments, and the speech synthesis outcome (`none` when it raises, which
the inner helper turns into a `None` result). -/
structure AudioInEnv where
  story : Option StoryRec
  textGen : Except (List Char) (List Char)
  tts : Option (List Char)
  deriving Repr

/-- `VoiceStoryConsumer.handle_audio_input` : missing audio data is an
error frame; otherwise emit a processing frame, build the story-context
prompt, obtain the reply text - the source calls
`nova.generate_story(prompt, max_tokens=150)`, and `max_tokens` is not a
parameter of `generate_story`, so the call raises `TypeError` inside the
helper and the canned fallback reply is returned - then synthesize the
reply: on success an `audio_output` frame carrying the reply text, on
failure a text-only `text_output` frame carrying the reply. No path
closes the session. -/
def handle_audio_input (env : AudioInEnv) (audio : Option (List Char)) :
    List CEv :=
  match audio with
  | none => [CEv.frame "error".data "No audio data provided".data]
  | some _ =>
    let ctx := storyContext env.story
    let _prompt := voicePromptPre ++ ctx ++ voicePromptPost
    let response_text :=
      match callWithKwargs generateStoryParams ["max_tokens".data] env.textGen with
      | .ok t => t
      | .error _ => fallbackReply
    CEv.frame "processing".data "Processing your voice input...".data ::
      (match env.tts with
       | some _ => [CEv.frame "audio_output".data response_text]
       | none => [CEv.frame "text_output".data response_text])

/-- Python `(chr(32)).join(texts)`. -/
def joinSpace (ls : List (List Char)) : List Char :=
  match ls with
  | [] => []
  | l :: rest => rest.foldl (fun acc x => acc ++ ' ' :: x) l

/-- Collaborator outcomes for one `handle_text_input` run: the audio
chunks and text responses collected from the Nova Sonic stream (errors in
the worker are swallowed there, leaving both lists as collected so far). -/
structure TextInEnv where
  audioChunks : List (List Char)
  textResponses : List (List Char)
  deriving Repr

/-- `VoiceStoryConsumer.handle_text_input` : missing text is an error
frame; otherwise a processing frame, then either an `audio_output` frame
(chunks joined, transcript joined) or a `text_output` frame. -/
def handle_text_input (env : TextInEnv) (text : Option (List Char)) :
    List CEv :=
  match text with
  | none => [CEv.frame "error".data "No text provided".data]
  | some _ =>
    CEv.frame "processing".data "Processing your message...".data ::
      (if env.audioChunks ≠ [] then
        [CEv.frame "audio_output".data (joinSpace env.textResponses)]
      else
        [CEv.frame "text_output".data
          (if env.textResponses ≠ [] then joinSpace env.textResponses
           else "No response generated".data)])

/-- The narration loop of `handle_start_narration` over the parsed parts:
whitespace-only segments are skipped; a synthesis exception for a segment
propagates to the handler `except`, which emits an error frame and ends
the loop (no completion signal); a false-y (empty) synthesis result skips
the frames of that segment; otherwise a binary audio frame is followed by
the `narration_text` caption frame for the same segment. Returns the
emitted events and whether the loop ran to completion. -/
def narrLoop (ttsPart : Nat → Except (List Char) (List Char)) :
    Nat → List Part → List CEv × Bool
  | _, [] => ([], true)
  | i, p :: ps =>
    if strip p.text = [] then narrLoop ttsPart (i + 1) ps
    else
      match ttsPart i with
      | .error e =>
        ([CEv.frame "error".data ("Error starting narration: ".data ++ e)], false)
      | .ok b =>
        let frames :=
          if b = [] then []
          else [CEv.binary b, CEv.frame "narration_text".data p.text]
        let rest := narrLoop ttsPart (i + 1) ps
        (frames ++ rest.1, rest.2)

/-- `VoiceStoryConsumer.handle_start_narration` : no story or empty text
is an error frame; otherwise a start signal, the narration loop over
`parse_story_parts` of the story text, and on completion the
`narration_complete` signal. -/
def handle_start_narration (story : Option StoryRec)
    (ttsPart : Nat → Except (List Char) (List Char)) : List CEv :=
  match story with
  | none => [CEv.frame "error".data "Story has no content to narrate".data]
  | some s =>
    if s.story_text = [] then
      [CEv.frame "error".data "Story has no content to narrate".data]
    else
      let looped := narrLoop ttsPart 0 (parse_story_parts s.story_text)
      CEv.frame "narration_started".data "Starting story narration...".data ::
        looped.1 ++
        (if looped.2 then
          [CEv.frame "narration_complete".data "Story narration completed".data]
        else [])

/-- `VoiceStoryConsumer.handle_stop_narration`. -/
def handle_stop_narration : List CEv :=
  [CEv.frame "narration_stopped".data "Narration stopped".data]

/-- An incoming WebSocket message after JSON decoding, keyed by its
`type` field; `invalidJson` stands for an undecodable payload. -/
inductive VMsg
  | audioInput (audio : Option (List Char))
  | textInput (text : Option (List Char))
  | startNarration
  | stopNarration
  | other (mtype : List Char)
  | invalidJson
  deriving DecidableEq, Repr

/-- The per-message environment of a `receive` call. -/
structure RecvEnv where
  audioIn : AudioInEnv
  textIn : TextInEnv
  narrStory : Option StoryRec
  ttsPart : Nat → Except (List Char) (List Char)

/-- `VoiceStoryConsumer.receive` : dispatch on the message type; an
unknown type and a JSON decoding failure each produce an error frame;
every processing exception inside the handlers is caught and also becomes
an error frame. No branch calls `close`. -/
def receive (env : RecvEnv) (msg : VMsg) : List CEv :=
  match msg with
  | VMsg.audioInput a => handle_audio_input env.audioIn a
  | VMsg.textInput t => handle_text_input env.textIn t
  | VMsg.startNarration => handle_start_narration env.narrStory env.ttsPart
  | VMsg.stopNarration => handle_stop_narration
  | VMsg.other t =>
    [CEv.frame "error".data ("Unknown message type: ".data ++ t)]
  | VMsg.invalidJson => [CEv.frame "error".data "Invalid JSON format".data]

/-- Whether an event closes the WebSocket. -/
def isClose : CEv → Bool
  | CEv.close _ => true
  | _ => false

/-- No event of the trace closes the session. -/
def noClose (tr : List CEv) : Bool := tr.all fun e => ¬isClose e

/-! ## Trace predicates

Decidable observations over event traces, used to state the ordering
claims about persistence, revision snapshots and asset cleanup. -/

/-- The revision snapshots a trace creates, in order. -/
def revisions (tr : List Ev) : List (List Char × Nat) :=
  tr.filterMap fun e =>
    match e with
    | Ev.createRevision t u => some (t, u)
    | _ => none

/-- A commit that makes `story_text` durable. -/
def isTextCommit : Ev → Bool
  | Ev.commit fs => decide (FField.storyText ∈ fs)
  | _ => false

/-- A commit that makes the audio-asset reference durable. -/
def isAudioCommit : Ev → Bool
  | Ev.commit fs => decide (FField.audioFile ∈ fs)
  | _ => false

/-- An in-memory update of the audio-asset reference. -/
def isSetRef : Ev → Bool
  | Ev.setAudioRef _ => true
  | _ => false

/-- A revision is created strictly before `story_text` first becomes
durable (vacuously when the text is never committed; false when no
revision is created at all). -/
def revBeforeTextCommit (tr : List Ev) : Bool :=
  match tr.findIdx? (fun e => (revisions [e]).length ≠ 0),
        tr.findIdx? isTextCommit with
  | some i, some j => i < j
  | some _, none => true
  | none, _ => false

/-- Scan: every `deleteFile` happens after some event satisfying
`enable`. -/
def delAfterGo (enable : Ev → Bool) (seen : Bool) : List Ev → Bool
  | [] => true
  | Ev.deleteFile _ :: es => seen && delAfterGo enable seen es
  | e :: es => delAfterGo enable (seen || enable e) es

/-- Old files are deleted only after the new audio reference was
committed. -/
def deletesOnlyAfterAudioCommit (tr : List Ev) : Bool :=
  delAfterGo isAudioCommit false tr

/-- Old files are deleted only after the in-memory audio reference was
updated. -/
def deletesOnlyAfterSetRef (tr : List Ev) : Bool :=
  delAfterGo isSetRef false tr

/-- Scan: the audio reference is updated only to a path already written,
and the dedicated `update_fields=[audio_file]` commit happens only after
such an update. -/
def writeThenRefGo (written : List (List Char)) (refSet : Bool) : List Ev → Bool
  | [] => true
  | Ev.writeFile p :: es => writeThenRefGo (p :: written) refSet es
  | Ev.setAudioRef p :: es =>
    if p ∈ written then writeThenRefGo written true es else false
  | Ev.commit fs :: es =>
    if fs = [FField.audioFile] then refSet && writeThenRefGo written refSet es
    else writeThenRefGo written refSet es
  | _ :: es => writeThenRefGo written refSet es

/-- Write-new-then-reference discipline over a whole trace. -/
def writeThenRef (tr : List Ev) : Bool := writeThenRefGo [] false tr

/-! ## Concrete inputs for witnesses and counterexamples -/

/-- Numbered-list input whose second section strips to exactly 50
characters (and whose first strips to 60). -/
def c7input : List Char :=
  "1: ".data ++ List.replicate 60 'a' ++ "\n2: ".data ++ List.replicate 50 'b'

/-- Input whose only markdown header line is followed by whitespace-only
text: the header strategy fires yet yields no segment, and the parser
falls through to the inline-marker strategy over the full input. -/
def c10input : List Char :=
  "Scene 2: the cat sat on the mat\n### Part 1\n   ".data

def demoStoryText : List Char :=
  "### Part 1\nThe fox runs.\n### Part 2\nThe fox rests.\n### Part 3\nThe fox wins.".data

def demoStory : StoryRec :=
  { userId := 7, title := "The Fox".data, prompt := "a fox".data,
    story_text := demoStoryText, system_prompt_used := [],
    template := "adventure".data, voice_id := [],
    audio_file := some "2026/02/7/audio_20260101_000000.mp3".data,
    image := none, image_description := [] }

def c1env : GenEnv :=
  { novaImportOk := true, analyzeImage := Except.error "no image".data,
    textGen := Except.ok ("Once upon a time, a fox.".data,
                          "You are Ace Storyteller.".data),
    tts := none, mp3 := none, savedPath := none, oldExists := false,
    dirFiles := [] }

def c2story : StoryRec := { demoStory with story_text := "A".data }

def c8env : RegenEnv :=
  { novaImportOk := true, analyzeImage := Except.error "e".data,
    textGen := fun _ => Except.ok ("A new story.".data, "sys".data),
    ttsOk := true, mp3Ok := true,
    savedPath := some "2026/02/7/audio_20260102_000000.mp3".data,
    oldExists := true }

def c8genv : GenEnv :=
  { novaImportOk := true, analyzeImage := Except.error "e".data,
    textGen := Except.ok ("A new fox story.".data, "sys".data),
    tts := some "pcm".data, mp3 := some "mp3".data,
    savedPath := some "2026/02/7/audio_20260103_000000.mp3".data,
    oldExists := true,
    dirFiles := ["audio_20260101_000000.mp3".data, "notes.txt".data] }

def c5env : ConnEnv :=
  { authenticated := false, isSuperuser := false, userId := 1,
    storyExists := true, storyOwner := 2, sonicInitOk := true }

def c6env : AudioInEnv :=
  { story := some demoStory,
    textGen := Except.ok "The dragon smiled at you.".data,
    tts := some "pcm".data }

def c9env : RecvEnv :=
  { audioIn := c6env,
    textIn := { audioChunks := [], textResponses := [] },
    narrStory := some demoStory,
    ttsPart := fun _ => Except.ok "pcm".data }

/-! ## Helper lemmas -/

theorem insertByNumber_length (p : Part) :
    ∀ l : List Part, (insertByNumber p l).length = l.length + 1 := by
  intro l
  induction l with
  | nil => rfl
  | cons q qs ih => by_cases h : q.number ≤ p.number <;> simp [insertByNumber, h, ih]

theorem sortFold_length (l : List Part) :
    ∀ acc : List Part,
      (l.foldl (fun acc p => insertByNumber p acc) acc).length =
        acc.length + l.length := by
  induction l with
  | nil => intro acc; simp
  | cons p ps ih =>
    intro acc
    rw [List.foldl_cons, ih, insertByNumber_length]
    simp only [List.length_cons]
    omega

theorem sortByNumber_length (l : List Part) : (sortByNumber l).length = l.length := by
  simpa [sortByNumber] using sortFold_length l []

theorem sortByNumber_ne_nil {l : List Part} (h : l ≠ []) : sortByNumber l ≠ [] := by
  intro hc
  apply h
  have := sortByNumber_length l
  rw [hc] at this
  exact List.length_eq_zero.mp this.symm

theorem if_nil_fallback_ne_nil (l : List Part) (t : List Char) :
    (if l = [] then [Part.mk 1 t] else l) ≠ [] := by
  split
  · simp
  · assumption

/-- For non-empty input the parser always produces at least one part:
every strategy branch either yields a non-empty list or falls through to
the single-part fallback. -/
theorem parse_story_parts_ne_nil {s : List Char} (h : strip s ≠ []) :
    parse_story_parts s ≠ [] := by
  unfold parse_story_parts
  rw [if_neg h]
  exact sortByNumber_ne_nil (if_nil_fallback_ne_nil _ _)

/-- If no line of the preamble is a header line, the markdown line loop
ignores the preamble entirely. -/
theorem mdLoopGo_drop_preamble (pre rest : List (List Char))
    (h : ∀ l ∈ pre, mdHeaderLine l = none) :
    mdLoopGo (pre ++ rest) none [] [] = mdLoopGo rest none [] [] := by
  induction pre with
  | nil => rfl
  | cons l ls ih =>
    have hl : mdHeaderLine l = none := h l (by simp)
    have hls : ∀ x ∈ ls, mdHeaderLine x = none := fun x hx => h x (by simp [hx])
    simpa [mdLoopGo, hl] using ih hls

/-! ## Claim C3 -/

/-- C3: `parse_story_parts` returns the empty list on empty or
whitespace-only input (the fallback is not taken); and on non-empty input
where no strategy produces any segment (the markdown strategy, the
inline-marker strategy and the numbered-list strategy all come up empty),
it returns exactly one segment numbered 1 whose text is the whole
stripped input. -/
theorem C3_empty_input_and_fallback (s : List Char) :
    (strip s = [] → parse_story_parts s = []) ∧
    (strip s ≠ [] → mdParts s = [] → p1Parts s = [] → p2Parts s = [] →
      parse_story_parts s = [⟨1, strip s⟩]) := by
  constructor
  · intro h
    simp [parse_story_parts, h]
  · intro h0 h1 h2 h3
    simp [parse_story_parts, h0, h1, h2, h3, sortByNumber, insertByNumber]

/-- C3 witness: the empty string, a whitespace-only string, and a
marker-free string. -/
theorem C3_empty_input_and_fallback_witness :
    parse_story_parts "   ".data = [] ∧
    parse_story_parts "Hello world".data = [⟨1, "Hello world".data⟩] := by
  constructor
  · exact (C3_empty_input_and_fallback "   ".data).1 (by decide)
  · have h := (C3_empty_input_and_fallback "Hello world".data).2
      (by decide) (by decide) (by decide) (by decide)
    have hs : strip "Hello world".data = "Hello world".data := by decide
    rwa [hs] at h

/-! ## Claim C10 -/

/-- C10 counterexample: the header-marker strategy matches the heading
line `### Part 1`, yet the returned segment consists entirely of text
that precedes the first header line. The only header-delimited segment
strips empty, so the markdown branch yields no parts and the parser
falls through to the inline-marker strategy over the full input -
preamble text is not absent from every returned segment. -/
theorem C10_counterexample :
    mdGate c10input = true ∧
    mdHeaderLine "### Part 1".data = some 1 ∧
    splitLines c10input =
      ["Scene 2: the cat sat on the mat".data, "### Part 1".data,
       "   ".data] ∧
    mdParts c10input = [] ∧
    parse_story_parts c10input = [⟨2, "the cat sat on the mat".data⟩] ∧
    containsSub "the cat sat on the mat".data
      "Scene 2: the cat sat on the mat".data = true := by
  refine ⟨by decide, by decide, by decide, by decide, by decide, by decide⟩

/-- C10 (amended): when the markdown header strategy fires and its line
loop yields at least one segment, all text before the first header line
is absent from the result: the parse depends only on the lines from the
first header on, so the returned segments need not cover the whole
input. (When every header-delimited segment strips empty, the strategy
yields nothing and the parser falls through to the later strategies over
the whole input, which can return preamble text.) -/
theorem C10_preamble_dropped (s : List Char) (pre rest : List (List Char))
    (hstrip : strip s ≠ [])
    (hsplit : splitLines s = pre ++ rest)
    (hpre : ∀ l ∈ pre, mdHeaderLine l = none)
    (hgate : mdGate s = true)
    (hne : mdLoopGo rest none [] [] ≠ []) :
    parse_story_parts s = sortByNumber (mdLoopGo rest none [] []) := by
  have hmd : mdParts s = mdLoopGo rest none [] [] := by
    simp [mdParts, hgate, hsplit, mdLoopGo_drop_preamble pre rest hpre]
  simp [parse_story_parts, hstrip, hmd, hne]

/-- C10 witness: a preamble line before the first header disappears from
the parse. -/
theorem C10_preamble_dropped_witness :
    parse_story_parts "Intro.\n### Part 1\nHello".data = [⟨1, "Hello".data⟩] := by
  have h := C10_preamble_dropped "Intro.\n### Part 1\nHello".data
    ["Intro.".data] ["### Part 1".data, "Hello".data]
    (by decide) (by decide) (by decide) (by decide) (by decide)
  rw [h]
  decide

/-! ## Claim C7 -/

/-- C7 counterexample: in the numbered-list strategy a matched segment
whose stripped text has exactly 50 characters is discarded, although the
claim says every segment of 50 characters or longer is kept. -/
theorem C7_counterexample :
    (2, List.replicate 50 'b') ∈ p2Matches c7input ∧
    (strip (List.replicate 50 'b')).length = 50 ∧
    Part.mk 2 (strip (List.replicate 50 'b')) ∉ parse_story_parts c7input ∧
    parse_story_parts c7input = [⟨1, List.replicate 60 'a'⟩] := by
  refine ⟨by decide, by decide, by decide, by decide⟩

/-- C7 (amended): a matched segment of the numbered-list strategy is kept
if and only if its stripped text is strictly longer than 50 characters;
segments of exactly 50 characters are discarded together with the shorter
ones. -/
theorem C7_kept_iff_longer_than_50 (s : List Char) (m : Nat × List Char)
    (hm : m ∈ p2Matches s) :
    Part.mk m.1 (strip m.2) ∈ p2Parts s ↔ 50 < (strip m.2).length := by
  constructor
  · intro h
    unfold p2Parts at h
    rcases List.mem_filterMap.mp h with ⟨a, _, ha⟩
    dsimp only at ha
    split at ha
    · rename_i hcond
      have he : Part.mk a.1 (strip a.2) = Part.mk m.1 (strip m.2) :=
        Option.some.inj ha
      have ht : strip a.2 = strip m.2 := congrArg Part.text he
      rw [← ht]
      exact hcond.2
    · exact absurd ha (by simp)
  · intro h
    have hne : strip m.2 ≠ [] := by
      intro hc
      rw [hc] at h
      simp at h
    unfold p2Parts
    exact List.mem_filterMap.mpr ⟨m, hm, by simp [hne, h]⟩

/-- C7 witness: the 60-character section of the same input is kept. -/
theorem C7_kept_iff_longer_than_50_witness :
    Part.mk 1 (strip (List.replicate 60 'a')) ∈ p2Parts c7input :=
  (C7_kept_iff_longer_than_50 c7input (1, List.replicate 60 'a')
    (by decide)).mpr (by decide)

/-! ## Claim C4 -/

/-- C4: `generate_scenes` reports overall failure exactly when every
per-segment generation failed; when some segments succeed, the failed
ones are skipped, the successful subset is returned as the result, and
the persisted scene set (the `createScene` events after the wipe) is
exactly that subset. -/
theorem C4_scene_partial_failure (story : StoryRec) (su : Bool) (u : Nat)
    (imgOk : Nat → Bool)
    (hperm : su = true ∨ story.userId = u)
    (hcontent : strip story.story_text ≠ []) :
    ((∀ ip ∈ (parse_story_parts story.story_text).enum, imgOk ip.1 = false) →
      (generate_scenes story su u true imgOk).1 = ScenesResp.allFailed) ∧
    (∀ scenes,
      scenes = ((parse_story_parts story.story_text).enum.filterMap fun ip =>
        if imgOk ip.1 then
          some ⟨ip.2.number, ip.2.text, scenePrompt ip.2.text⟩ else none) →
      (scenes ≠ [] →
        (generate_scenes story su u true imgOk).1 = ScenesResp.ok scenes) ∧
      (generate_scenes story su u true imgOk).2 =
        Ev.deleteAllScenes ::
          scenes.map fun sc => Ev.createScene sc.scene_number sc.scene_text) := by
  have hparts := parse_story_parts_ne_nil hcontent
  have hp : ¬¬(su = true ∨ story.userId = u) := not_not_intro hperm
  unfold generate_scenes
  rw [if_neg hp, if_neg hcontent, if_neg (by simp), if_neg hparts]
  refine ⟨?_, ?_⟩
  · intro hall
    have hnil : ((parse_story_parts story.story_text).enum.filterMap fun ip =>
        if imgOk ip.1 then
          some (Scene.mk ip.2.number ip.2.text (scenePrompt ip.2.text))
        else none) = [] := by
      apply List.filterMap_eq_nil_iff.mpr
      intro a ha
      simp [hall a ha]
    simp [hnil]
  · intro scenes hsc
    subst hsc
    constructor
    · intro hne
      simp [hne]
    · by_cases hn : ((parse_story_parts story.story_text).enum.filterMap fun ip =>
        if imgOk ip.1 then
          some (Scene.mk ip.2.number ip.2.text (scenePrompt ip.2.text))
        else none) = []
      · simp [hn]
      · simp [hn]

set_option maxRecDepth 4000 in
/-- C4 witness: three parsed segments, the second fails; the result is a
success carrying exactly scenes 1 and 3, and exactly those two scenes are
persisted after the wipe. -/
theorem C4_scene_partial_failure_witness :
    (generate_scenes demoStory false 7 true fun i => decide (i ≠ 1)).1 =
      ScenesResp.ok
        [⟨1, "The fox runs.".data, scenePrompt "The fox runs.".data⟩,
         ⟨3, "The fox wins.".data, scenePrompt "The fox wins.".data⟩] ∧
    (generate_scenes demoStory false 7 true fun i => decide (i ≠ 1)).2 =
      [Ev.deleteAllScenes,
       Ev.createScene 1 "The fox runs.".data,
       Ev.createScene 3 "The fox wins.".data] := by
  have h := (C4_scene_partial_failure demoStory false 7
      (fun i => decide (i ≠ 1)) (Or.inr rfl) (by decide)).2 _ rfl
  refine ⟨?_, ?_⟩
  · rw [h.1 (by decide)]
    decide
  · rw [h.2]
    decide

/-! ## Claim C1 -/

/-- C1: in a run where text generation succeeds with non-empty text and
speech synthesis then fails, the generated text and the system prompt
used are committed before the audio stage is entered, the audio-asset
reference is left unchanged (never set, never committed), the audio
failure is swallowed, and the operation still returns success. -/
theorem C1_text_survives_audio_failure (env : GenEnv) (story : StoryRec)
    (t sp : List Char)
    (himp : env.novaImportOk = true)
    (hgen : env.textGen = Except.ok (t, sp))
    (htext : strip t ≠ [])
    (htts : env.tts = none) :
    (generate_story_content env story none false).1.story_text = t ∧
    (generate_story_content env story none false).1.system_prompt_used = sp ∧
    (generate_story_content env story none false).1.audio_file = story.audio_file ∧
    (generate_story_content env story none false).2.2 = true ∧
    ((generate_story_content env story none false).2.1 =
        [Ev.commit [FField.storyText, FField.systemPromptUsed], Ev.audioAttempt] ∨
     (generate_story_content env story none false).2.1 =
        [Ev.commit [FField.imageDescription],
         Ev.commit [FField.storyText, FField.systemPromptUsed],
         Ev.audioAttempt]) := by
  unfold generate_story_content audioStage
  rw [himp, hgen, htts]
  cases hi : story.image <;> rcases ha : env.analyzeImage with e | d <;>
    simp [hi, ha, htext]

/-- C1 witness: a concrete run with successful text generation and a
failing synthesis call. -/
theorem C1_text_survives_audio_failure_witness :
    (generate_story_content c1env demoStory none false).1.story_text =
      "Once upon a time, a fox.".data ∧
    (generate_story_content c1env demoStory none false).1.audio_file =
      demoStory.audio_file ∧
    (generate_story_content c1env demoStory none false).2.2 = true ∧
    (generate_story_content c1env demoStory none false).2.1 =
      [Ev.commit [FField.storyText, FField.systemPromptUsed], Ev.audioAttempt] := by
  have h := C1_text_survives_audio_failure c1env demoStory
    "Once upon a time, a fox.".data "You are Ace Storyteller.".data
    rfl rfl (by decide) rfl
  refine ⟨h.1, h.2.2.1, h.2.2.2.1, ?_⟩
  rcases h.2.2.2.2 with h5 | h5
  · exact h5
  · exact absurd h5 (by decide)

/-! ## Claim C2 -/

theorem revisions_append (a b : List Ev) :
    revisions (a ++ b) = revisions a ++ revisions b := by
  simp [revisions, List.filterMap_append]

theorem revisions_regenImageStage (env : RegenEnv) (s : StoryRec) :
    revisions (regenImageStage env s).2 = [] := by
  unfold regenImageStage
  split
  · split
    · rfl
    · cases h : env.analyzeImage <;> simp [revisions]
  · rfl

theorem revisions_regenAudioStage (env : RegenEnv) (s : StoryRec) :
    revisions (regenAudioStage env s).2 = [] := by
  unfold regenAudioStage
  split
  · rfl
  · split
    · rfl
    · cases h : env.savedPath with
      | none => rfl
      | some p =>
        cases ho : s.audio_file with
        | none => rfl
        | some o =>
          dsimp only
          split <;> rfl

theorem revisions_nil : revisions [] = [] := rfl

theorem revisions_single_rev (t : List Char) (u : Nat) :
    revisions [Ev.createRevision t u] = [(t, u)] := rfl

theorem revisions_cons_rev (t : List Char) (u : Nat) (rest : List Ev) :
    revisions (Ev.createRevision t u :: rest) = (t, u) :: revisions rest := by
  simp [revisions, List.filterMap_cons]

theorem revisions_single_commit (fs : List FField) :
    revisions [Ev.commit fs] = [] := rfl

theorem revBeforeTextCommit_cons_rev (t : List Char) (u : Nat)
    (rest : List Ev) :
    revBeforeTextCommit (Ev.createRevision t u :: rest) = true := by
  unfold revBeforeTextCommit
  rw [List.findIdx?_cons, List.findIdx?_cons]
  simp only [revisions, List.filterMap_cons, isTextCommit, List.length_cons,
    List.length_nil, List.filterMap_nil]
  rcases h : List.findIdx? isTextCommit rest with _ | k <;> simp [h]

/-- C2 counterexample: a direct edit replacing the non-empty text
`A` with `B` does create exactly one revision containing `A` tagged with
the acting user, but the revision is created only after the
`serializer.save()` commit of the new text - not before it, as the claim
requires. -/
theorem C2_counterexample :
    revisions (perform_update c1env c2story 7
      { story_textField := some "B".data, imagePresent := false }).2 =
      [("A".data, 7)] ∧
    revBeforeTextCommit (perform_update c1env c2story 7
      { story_textField := some "B".data, imagePresent := false }).2 = false := by
  refine ⟨by decide, by decide⟩

/-- C2 (amended): on a direct edit replacing non-empty `story_text` with
different text, exactly one revision containing the previous text and
tagged with the acting user is created - but after `serializer.save()`
commits the new text, not before; replacing empty text creates zero
revisions. On the regenerate path, one revision of the previous non-empty
text is created before anything is committed (and zero when the previous
text strips empty). -/
theorem C2_revision_snapshot (genEnv : GenEnv) (env : RegenEnv)
    (story : StoryRec) (u : Nat) (newT : List Char)
    (np : Option (List Char)) (mods : List Char) (tpl : Option (List Char))
    (hperm : story.userId = u) :
    ((perform_update genEnv story u
        { story_textField := some newT, imagePresent := false }).2 =
      Ev.commit allFields ::
        (if story.story_text ≠ newT ∧ story.story_text ≠ [] then
          [Ev.createRevision story.story_text u] else [])) ∧
    (strip story.story_text ≠ [] →
      revisions (regenerate env story false u np mods tpl).2.1 =
        [(story.story_text, u)] ∧
      revBeforeTextCommit (regenerate env story false u np mods tpl).2.1 = true) ∧
    (strip story.story_text = [] →
      revisions (regenerate env story false u np mods tpl).2.1 = []) := by
  have hnf : ¬¬((false = true) ∨ story.userId = u) := not_not_intro (Or.inr hperm)
  refine ⟨?_, ?_, ?_⟩
  · simp [perform_update]
  · intro hne
    unfold regenerate
    rw [if_neg hnf, if_pos hne]
    by_cases himp : env.novaImportOk
    · rw [if_neg (not_not_intro himp)]
      dsimp only
      split <;>
        simp [revisions_append, revisions_regenImageStage,
              revisions_regenAudioStage, revisions_single_rev,
              revisions_cons_rev, revisions_single_commit,
              revisions_nil, revBeforeTextCommit_cons_rev]
    · rw [if_pos (by simp [himp])]
      simp [revisions_single_rev, revisions_cons_rev, revisions_nil,
            revBeforeTextCommit_cons_rev]
  · intro hemp
    unfold regenerate
    rw [if_neg hnf, if_neg (not_not_intro hemp)]
    by_cases himp : env.novaImportOk
    · rw [if_neg (not_not_intro himp)]
      dsimp only
      split <;>
        simp [revisions_append, revisions_regenImageStage,
              revisions_regenAudioStage, revisions_single_commit]
    · rw [if_pos (by simp [himp])]
      rfl

/-- C2 witness: instantiation at a story whose text is `A`, replaced by
`B`, plus a regenerate run on the same story. -/
theorem C2_revision_snapshot_witness :
    (perform_update c1env c2story 7
        { story_textField := some "B".data, imagePresent := false }).2 =
      [Ev.commit allFields, Ev.createRevision "A".data 7] ∧
    revisions (regenerate c8env c2story false 7 none [] none).2.1 =
      [("A".data, 7)] ∧
    revBeforeTextCommit (regenerate c8env c2story false 7 none [] none).2.1 =
      true := by
  have h := C2_revision_snapshot c1env c8env c2story 7 "B".data none [] none rfl
  refine ⟨?_, (h.2.1 (by decide)).1, (h.2.1 (by decide)).2⟩
  rw [h.1]
  decide

/-! ## Claim C8 -/

theorem writeThenRefGo_deletes (l : List (List Char)) :
    ∀ w r, writeThenRefGo w r (l.map Ev.deleteFile) = true := by
  induction l with
  | nil => intro w r; rfl
  | cons p ps ih => intro w r; simpa [writeThenRefGo] using ih w r

theorem delAfterGo_true_deletes (enable : Ev → Bool) (l : List (List Char)) :
    delAfterGo enable true (l.map Ev.deleteFile) = true := by
  induction l with
  | nil => rfl
  | cons p ps ih => simpa [delAfterGo] using ih

theorem glob_isAudioNameGen {f : List Char} (h : globAudioMp3 f = true) :
    isAudioNameGen f = true := by
  have h2 : ".mp3".data <:+ f := by
    unfold globAudioMp3 at h
    simp at h
    exact h.2.1
  unfold isAudioNameGen
  simp [h2]

theorem mem_map_deleteFile {p : List Char} {l : List (List Char)}
    (h : Ev.deleteFile p ∈ l.map Ev.deleteFile) : p ∈ l := by
  rcases List.mem_map.mp h with ⟨a, ha, he⟩
  cases he
  exact ha

/-- The two trace shapes of the audio stage of
`_generate_story_content`: a failed stage attempts audio and stops; a
successful one writes the new asset, sets and commits the reference,
optionally deletes the distinct audio-named old asset, and sweeps the
other `audio_*.mp3` files of the directory. -/
theorem audioStage_trace (env : GenEnv) (s : StoryRec) (t : List Char) :
    (audioStage env s t).2 = [Ev.audioAttempt] ∨
    ∃ p del,
      (audioStage env s t).2 =
        [Ev.audioAttempt, Ev.writeFile p, Ev.setAudioRef p,
         Ev.commit [FField.audioFile]] ++ del ++
        ((env.dirFiles.filter fun f => globAudioMp3 f ∧ f ≠ baseName p).map
          Ev.deleteFile) ∧
      (del = [] ∨ ∃ o, del = [Ev.deleteFile o] ∧ isAudioNameGen o = true) := by
  unfold audioStage
  split
  · exact Or.inl rfl
  · cases htts : env.tts with
    | none => exact Or.inl rfl
    | some a =>
      cases hmp : env.mp3 with
      | none => exact Or.inl rfl
      | some m =>
        cases hsp : env.savedPath with
        | none => exact Or.inl rfl
        | some p =>
          refine Or.inr ⟨p, ?_⟩
          cases ho : s.audio_file with
          | none => exact ⟨[], by simp, Or.inl rfl⟩
          | some o =>
            dsimp only
            split
            · rename_i hc
              exact ⟨[Ev.deleteFile o], by simp, Or.inr ⟨o, rfl, hc.2.1⟩⟩
            · exact ⟨[], by simp, Or.inl rfl⟩

/-- The two trace shapes of the audio stage of `regenerate`: a failed
stage attempts audio and stops; a successful one writes the new asset,
sets the in-memory reference and optionally deletes the distinct
audio-named old asset - with no commit inside the stage. -/
theorem regenAudioStage_trace (env : RegenEnv) (s : StoryRec) :
    (regenAudioStage env s).2 = [Ev.audioAttempt] ∨
    ∃ p del,
      (regenAudioStage env s).2 =
        [Ev.audioAttempt, Ev.writeFile p, Ev.setAudioRef p] ++ del ∧
      (del = [] ∨ ∃ o, del = [Ev.deleteFile o] ∧ isAudioNameRegen o = true) := by
  unfold regenAudioStage
  split
  · exact Or.inl rfl
  · split
    · exact Or.inl rfl
    · cases hsp : env.savedPath with
      | none => exact Or.inl rfl
      | some p =>
        refine Or.inr ⟨p, ?_⟩
        cases ho : s.audio_file with
        | none => exact ⟨[], by simp, Or.inl rfl⟩
        | some o =>
          dsimp only
          split
          · rename_i hc
            exact ⟨[Ev.deleteFile o], by simp, Or.inr ⟨o, rfl, hc.2.2⟩⟩
          · exact ⟨[], by simp, Or.inl rfl⟩

theorem audioStage_writeThenRefGo (env : GenEnv) (s : StoryRec)
    (t : List Char) (w : List (List Char)) (r : Bool) :
    writeThenRefGo w r (audioStage env s t).2 = true := by
  rcases audioStage_trace env s t with h | ⟨p, del, h, hdel⟩
  · rw [h]; rfl
  · rw [h]
    rcases hdel with hd | ⟨o, hd, _⟩ <;> subst hd <;>
      simp [writeThenRefGo, writeThenRefGo_deletes]

theorem audioStage_delAfterAudioCommit (env : GenEnv) (s : StoryRec)
    (t : List Char) (seen : Bool) :
    delAfterGo isAudioCommit seen (audioStage env s t).2 = true := by
  rcases audioStage_trace env s t with h | ⟨p, del, h, hdel⟩
  · rw [h]; rfl
  · rw [h]
    rcases hdel with hd | ⟨o, hd, _⟩ <;> subst hd <;>
      simp [delAfterGo, isAudioCommit, delAfterGo_true_deletes]

theorem audioStage_deletes_audio (env : GenEnv) (s : StoryRec)
    (t : List Char) (p : List Char)
    (h : Ev.deleteFile p ∈ (audioStage env s t).2) :
    isAudioNameGen p = true := by
  rcases audioStage_trace env s t with he | ⟨q, del, he, hdel⟩
  · rw [he] at h
    simp at h
  · rw [he] at h
    simp only [List.mem_append] at h
    rcases h with (h | h) | h
    · simp at h
    · rcases hdel with hd | ⟨o, hd, ho⟩
      · subst hd
        simp at h
      · subst hd
        simp only [List.mem_cons, List.not_mem_nil, or_false,
          Ev.deleteFile.injEq] at h
        subst h
        exact ho
    · have hp := mem_map_deleteFile h
      have hf := (List.mem_filter.mp hp).2
      have hg : globAudioMp3 p = true := by
        simp only [decide_eq_true_eq] at hf
        simp [hf.1]
      exact glob_isAudioNameGen hg

theorem regenImageStage_trace (env : RegenEnv) (s : StoryRec) :
    (regenImageStage env s).2 = [] ∨
    (regenImageStage env s).2 = [Ev.commit [FField.imageDescription]] := by
  unfold regenImageStage
  split
  · split
    · exact Or.inl rfl
    · cases h : env.analyzeImage
      · exact Or.inl rfl
      · exact Or.inr rfl
  · exact Or.inl rfl

theorem regenAudioStage_writeThenRefGo (env : RegenEnv) (s : StoryRec)
    (w : List (List Char)) (r : Bool) :
    writeThenRefGo w r (regenAudioStage env s).2 = true := by
  rcases regenAudioStage_trace env s with h | ⟨p, del, h, hdel⟩
  · rw [h]; rfl
  · rw [h]
    rcases hdel with hd | ⟨o, hd, _⟩ <;> subst hd <;>
      simp [writeThenRefGo]

theorem regenAudioStage_delAfterSetRef (env : RegenEnv) (s : StoryRec)
    (seen : Bool) :
    delAfterGo isSetRef seen (regenAudioStage env s).2 = true := by
  rcases regenAudioStage_trace env s with h | ⟨p, del, h, hdel⟩
  · rw [h]; rfl
  · rw [h]
    rcases hdel with hd | ⟨o, hd, _⟩ <;> subst hd <;>
      simp [delAfterGo, isSetRef]

theorem regenAudioStage_deletes_audio (env : RegenEnv) (s : StoryRec)
    (p : List Char)
    (h : Ev.deleteFile p ∈ (regenAudioStage env s).2) :
    isAudioNameRegen p = true := by
  rcases regenAudioStage_trace env s with he | ⟨q, del, he, hdel⟩
  · rw [he] at h
    simp at h
  · rw [he] at h
    simp only [List.mem_append] at h
    rcases h with h | h
    · simp at h
    · rcases hdel with hd | ⟨o, hd, ho⟩
      · subst hd
        simp at h
      · subst hd
        simp only [List.mem_cons, List.not_mem_nil, or_false,
          Ev.deleteFile.injEq] at h
        subst h
        exact ho

theorem regenAudioStage_writeThenRefGo_commit (env : RegenEnv) (s : StoryRec)
    (w : List (List Char)) (r : Bool) :
    writeThenRefGo w r
      ((regenAudioStage env s).2 ++ [Ev.commit allFields]) = true := by
  rcases regenAudioStage_trace env s with h | ⟨p, del, h, hdel⟩
  · rw [h]
    simp [writeThenRefGo, allFields]
  · rw [h]
    rcases hdel with hd | ⟨o, hd, _⟩ <;> subst hd <;>
      simp [writeThenRefGo, allFields]

theorem regenAudioStage_delAfterSetRef_commit (env : RegenEnv) (s : StoryRec)
    (seen : Bool) :
    delAfterGo isSetRef seen
      ((regenAudioStage env s).2 ++ [Ev.commit allFields]) = true := by
  rcases regenAudioStage_trace env s with h | ⟨p, del, h, hdel⟩
  · rw [h]
    simp [delAfterGo, isSetRef]
  · rw [h]
    rcases hdel with hd | ⟨o, hd, _⟩ <;> subst hd <;>
      simp [delAfterGo, isSetRef]

/-- C8 counterexample: in `regenerate`, the old audio asset is deleted
before the `story.save()` that commits the new audio reference - the
trace of a successful regeneration run deletes the old file with no prior
commit of the audio field. -/
theorem C8_counterexample :
    (regenerate c8env demoStory true 7 none [] none).2.1 =
      [Ev.createRevision demoStoryText 7, Ev.audioAttempt,
       Ev.writeFile "2026/02/7/audio_20260102_000000.mp3".data,
       Ev.setAudioRef "2026/02/7/audio_20260102_000000.mp3".data,
       Ev.deleteFile "2026/02/7/audio_20260101_000000.mp3".data,
       Ev.commit allFields] ∧
    deletesOnlyAfterAudioCommit
      (regenerate c8env demoStory true 7 none [] none).2.1 = false := by
  refine ⟨by decide, by decide⟩

/-- C8 (amended): in both audio (re)generation paths the new asset is
written before the reference is updated (in memory, and in
`_generate_story_content` also before the dedicated commit of the audio
field), and only audio-named files are ever deleted. In
`_generate_story_content` the deletions happen only after the new
reference is committed; in `regenerate` they happen after the in-memory
reference update but before the final `story.save()` commit. -/
theorem C8_asset_replacement (env : GenEnv) (renv : RegenEnv)
    (story : StoryRec) (idesc : Option (List Char)) (goa : Bool)
    (su : Bool) (u : Nat) (np : Option (List Char)) (mods : List Char)
    (tpl : Option (List Char)) :
    (writeThenRef (generate_story_content env story idesc goa).2.1 = true ∧
     deletesOnlyAfterAudioCommit
       (generate_story_content env story idesc goa).2.1 = true ∧
     (∀ p, Ev.deleteFile p ∈ (generate_story_content env story idesc goa).2.1 →
        isAudioNameGen p = true)) ∧
    (writeThenRef (regenerate renv story su u np mods tpl).2.1 = true ∧
     deletesOnlyAfterSetRef
       (regenerate renv story su u np mods tpl).2.1 = true ∧
     (∀ p, Ev.deleteFile p ∈ (regenerate renv story su u np mods tpl).2.1 →
        isAudioNameRegen p = true)) := by
  constructor
  · unfold generate_story_content
    by_cases himp : env.novaImportOk
    · rw [if_neg (not_not_intro himp)]
      dsimp only
      split
      all_goals try split
      all_goals try split
      all_goals try split
      all_goals refine ⟨?_, ?_, ?_⟩
      all_goals first
        | (simp [writeThenRef, writeThenRefGo, allFields,
             audioStage_writeThenRefGo]; done)
        | (simp [deletesOnlyAfterAudioCommit, delAfterGo, isAudioCommit,
             allFields, audioStage_delAfterAudioCommit]; done)
        | (intro p hp
           try simp at hp
           all_goals exact audioStage_deletes_audio _ _ _ _ hp)
    · rw [if_pos (by simp [himp])]
      refine ⟨rfl, rfl, ?_⟩
      intro p hp
      simp at hp
  · unfold regenerate
    by_cases hsu : (su = true ∨ story.userId = u)
    · rw [if_neg (not_not_intro hsu)]
      by_cases himp : renv.novaImportOk
      · rw [if_neg (not_not_intro himp)]
        dsimp only
        rcases regenImageStage_trace renv story with hi | hi <;> rw [hi]
        all_goals split
        all_goals try split
        all_goals try split
        all_goals refine ⟨?_, ?_, ?_⟩
        all_goals first
          | (simp [writeThenRef, writeThenRefGo,
               regenAudioStage_writeThenRefGo_commit]; done)
          | (simp [deletesOnlyAfterSetRef, delAfterGo, isSetRef,
               regenAudioStage_delAfterSetRef_commit]; done)
          | (intro p hp
             try simp at hp
             all_goals exact regenAudioStage_deletes_audio _ _ _ hp)
      · rw [if_pos (by simp [himp])]
        dsimp only
        split
        all_goals refine ⟨?_, ?_, ?_⟩
        all_goals first
          | rfl
          | (intro p hp; simp at hp)
    · rw [if_pos hsu]
      refine ⟨rfl, rfl, ?_⟩
      intro p hp
      simp at hp

/-- C8 witness: a full regeneration with an old asset and a stale sweep
candidate on disk; the discipline holds and the swept file is
audio-named. -/
theorem C8_asset_replacement_witness :
    writeThenRef (generate_story_content c8genv demoStory none false).2.1 =
      true ∧
    deletesOnlyAfterAudioCommit
      (generate_story_content c8genv demoStory none false).2.1 = true ∧
    isAudioNameGen "audio_20260101_000000.mp3".data = true ∧
    deletesOnlyAfterSetRef
      (regenerate c8env demoStory true 7 none [] none).2.1 = true := by
  have h := C8_asset_replacement c8genv c8env demoStory none false true 7
    none [] none
  exact ⟨h.1.1, h.1.2.1,
    h.1.2.2 "audio_20260101_000000.mp3".data (by decide), h.2.2.1⟩

/-! ## Claim C5 -/

/-- C5 counterexample: an unauthenticated connecting identity that
neither owns the story nor holds elevated privilege is not closed with
the forbidden signal - the session is accepted and becomes active (the
debug-mode bypass hard-coded in `connect`). -/
theorem C5_counterexample :
    c5env.authenticated = false ∧ c5env.isSuperuser = false ∧
    c5env.storyOwner ≠ c5env.userId ∧ c5env.storyExists = true ∧
    connect c5env =
      [CEv.accepted,
       CEv.frame "connection_established".data "Voice session started".data] ∧
    CEv.close (some 4003) ∉ connect c5env := by
  refine ⟨rfl, rfl, by decide, rfl, by decide, by decide⟩

/-- C5 (amended): an unknown story closes the session immediately with
the not-found code 4004; an authenticated identity that neither owns the
story nor holds superuser privilege is closed with the forbidden code
4003 before the session is accepted. An unauthenticated identity bypasses
the permission check entirely (the debug-mode branch of the source, whose
production close is commented out). -/
theorem C5_connect_authorization (env : ConnEnv) :
    (env.storyExists = false → connect env = [CEv.close (some 4004)]) ∧
    (env.storyExists = true → env.authenticated = true →
      env.isSuperuser = false → env.storyOwner ≠ env.userId →
      connect env = [CEv.close (some 4003)]) := by
  constructor
  · intro h
    simp [connect, h]
  · intro h1 h2 h3 h4
    simp [connect, check_permission, h1, h2, h3, h4]

/-- C5 witness: a missing story, and an authenticated non-owner. -/
theorem C5_connect_authorization_witness :
    connect { c5env with storyExists := false } = [CEv.close (some 4004)] ∧
    connect { c5env with authenticated := true } = [CEv.close (some 4003)] :=
  ⟨(C5_connect_authorization { c5env with storyExists := false }).1 rfl,
   (C5_connect_authorization { c5env with authenticated := true }).2
     rfl rfl rfl (by decide)⟩

/-! ## Claim C9 -/

theorem narrLoop_noClose (tts : Nat → Except (List Char) (List Char)) :
    ∀ i ps, noClose (narrLoop tts i ps).1 = true := by
  intro i ps
  induction ps generalizing i with
  | nil => rfl
  | cons p rest ih =>
    unfold narrLoop
    split
    · exact ih _
    · cases h : tts i with
      | error e => rfl
      | ok b =>
        dsimp only
        split <;> simp [noClose, isClose]
        all_goals
          have := ih (i + 1)
          simp [noClose] at this
          simpa using this

/-- C9: the `receive` dispatch of an established voice session never
closes the connection: every message, including one of unknown kind,
results only in frames being emitted (an unknown kind produces exactly
the error frame), and no handler path emits a close event. -/
theorem C9_receive_never_closes (env : RecvEnv) (msg : VMsg) :
    noClose (receive env msg) = true ∧
    (∀ t, msg = VMsg.other t →
      receive env msg =
        [CEv.frame "error".data ("Unknown message type: ".data ++ t)]) := by
  constructor
  · cases msg with
    | audioInput a =>
      unfold receive handle_audio_input
      cases a
      · rfl
      · cases c : env.audioIn.tts <;> simp [noClose, isClose]
    | textInput t =>
      unfold receive handle_text_input
      cases t
      · rfl
      · dsimp only
        split <;> simp [noClose, isClose]
    | startNarration =>
      unfold receive handle_start_narration
      cases hs : env.narrStory with
      | none => rfl
      | some s =>
        dsimp only
        split
        · rfl
        · have hl := narrLoop_noClose env.ttsPart 0 (parse_story_parts s.story_text)
          simp only [noClose] at hl ⊢
          split <;> simp [isClose, hl] <;> simpa using hl
    | stopNarration => rfl
    | other t => rfl
    | invalidJson => rfl
  · intro t ht
    subst ht
    rfl

/-- C9 witness: an unknown message kind `foo` leaves the session open and
produces exactly the error frame. -/
theorem C9_receive_never_closes_witness :
    noClose (receive c9env (VMsg.other "foo".data)) = true ∧
    receive c9env (VMsg.other "foo".data) =
      [CEv.frame "error".data "Unknown message type: foo".data] := by
  have h := C9_receive_never_closes c9env (VMsg.other "foo".data)
  refine ⟨h.1, ?_⟩
  rw [h.2 "foo".data rfl]
  rfl

/-! ## Claim C6 -/

/-- C6 (code bug): the audio-input handler is meant to obtain a short
in-character reply from the text-generation collaborator using the story
as context, but the source calls
`nova.generate_story(prompt, max_tokens=150)` and `max_tokens` is not a
parameter of `generate_story` - the call raises `TypeError` on every
input, so the emitted reply is always the canned fallback, never the
collaborator reply (here the collaborator would have answered with a
different text). The degradation part of the claim does hold: a failing
synthesis yields a `text_output` frame carrying the reply, and no path
errors out or closes. -/
theorem C6_audio_reply_divergence :
    handle_audio_input c6env (some "QUJD".data) =
      [CEv.frame "processing".data "Processing your voice input...".data,
       CEv.frame "audio_output".data fallbackReply] ∧
    handle_audio_input { c6env with tts := none } (some "QUJD".data) =
      [CEv.frame "processing".data "Processing your voice input...".data,
       CEv.frame "text_output".data fallbackReply] ∧
    c6env.textGen = Except.ok "The dragon smiled at you.".data ∧
    fallbackReply ≠ "The dragon smiled at you.".data ∧
    (∀ g : Except (List Char) (List Char),
      callWithKwargs generateStoryParams ["max_tokens".data] g =
        Except.error "TypeError: unexpected keyword argument".data) := by
  refine ⟨by decide, by decide, rfl, by decide, fun g => rfl⟩

end NovaStoryteller
